import Mathlib

/-!
# Verification of the Almere commuting crowding model

Shallow embedding of the core of the `my-commute-chatbot` repository:

* `src/agent_simulation.py` — `CommuterAgent.decide_on_pt`,
  `PublicTransportLine` (capacity / riders / crowding ratio) and
  `run_crowding_simulation`;
* `src/recommendation_engine.py` — `generate_recommendations`.

Python floats are embedded as exact rationals (`ℚ`); all comparisons in the
source use wide margins, so no claim depends on binary rounding.  The one
source of randomness, the per-agent crowding tolerance sampled by
`random.uniform(0.5, 0.9)` when no explicit tolerance is supplied, is made an
explicit parameter (`tol : ℕ → ℚ`, the sampled value for the agent built from
the row at each index), as the spec's reproducible-testing note requires.
-/

namespace AlmereCommuting

/-- One commuter agent, mirroring `CommuterAgent.__init__`: identity, the
usual and current commute modes, the two PT-relevant TPB scores and the
crowding tolerance (explicit here; the Python default samples it from
`random.uniform(0.5, 0.9)`). -/
structure CommuterAgent where
  id : ℤ
  usual_mode : String
  current_mode : String
  attitude_pt : ℚ
  pbc_pt : ℚ
  crowding_tolerance : ℚ
deriving DecidableEq

/-- `CommuterAgent.decide_on_pt` from `agent_simulation.py`, line for line:
non-PT-usual agents return `False` at once; otherwise the crowding impact
degrades PBC (×3) and attitude (×2), both floored at 1, and the agent stays
on PT iff neither adjusted score drops below 3.  The Python method assigns no
attribute of `self`, so it embeds as a pure function of the agent. -/
def decide_on_pt (a : CommuterAgent) (perceived_crowding_level : ℚ) : Bool :=
  if a.usual_mode ≠ "Public Transport" then
    false
  else
    let crowding_impact := max 0 (perceived_crowding_level - a.crowding_tolerance) * 2
    let adjusted_pbc_pt := max 1 (a.pbc_pt - crowding_impact * 3)
    let adjusted_attitude_pt := max 1 (a.attitude_pt - crowding_impact * 2)
    if adjusted_pbc_pt < 3 ∨ adjusted_attitude_pt < 3 then false else true

/-- `PublicTransportLine.__init__`: a named line with a capacity and a
current rider counter (0 at construction). -/
structure PublicTransportLine where
  name : String
  capacity : ℤ
  current_riders : ℤ
deriving DecidableEq

/-- `PublicTransportLine.get_crowding_level`: `0.0` when capacity is 0,
otherwise `min(1.0, current_riders / capacity)`. -/
def get_crowding_level (l : PublicTransportLine) : ℚ :=
  if l.capacity = 0 then 0
  else min 1 ((l.current_riders : ℚ) / (l.capacity : ℚ))

/-- `PublicTransportLine.add_rider`. -/
def add_rider (l : PublicTransportLine) : PublicTransportLine :=
  { l with current_riders := l.current_riders + 1 }

/-- `PublicTransportLine.remove_rider`: decrement floored at 0. -/
def remove_rider (l : PublicTransportLine) : PublicTransportLine :=
  { l with current_riders := max 0 (l.current_riders - 1) }

/-- `PublicTransportLine.reset_riders`. -/
def reset_riders (l : PublicTransportLine) : PublicTransportLine :=
  { l with current_riders := 0 }

/-- The fields of a commuter profile read by `generate_recommendations`
(`recommendation_engine.py`): the eleven score columns it consults plus the
usual commute mode.  Scores are the dataset's integers. -/
structure UserProfile where
  UsualCommuteMode : String
  Intention_PT_Score : ℤ
  Attitude_PT_Score : ℤ
  SN_PT_Score : ℤ
  PBC_PT_Score : ℤ
  Intention_Car_Score : ℤ
  Attitude_Car_Score : ℤ
  SN_Car_Score : ℤ
  PBC_Car_Score : ℤ
  Intention_WalkCycle_Score : ℤ
  PBC_WalkCycle_Score : ℤ
deriving DecidableEq

/-- The two fields of the crowding-insights record that
`generate_recommendations` reads (`.get` with default 0 in the source; the
simulation always supplies both keys). -/
structure CrowdingInsights where
  average_pt_crowding : ℚ
  total_mode_switches_from_pt : ℤ
deriving DecidableEq

/-- The distinct recommendation messages `generate_recommendations` can
append, one constructor per `recommendations.append(...)` site, in source
order; the crowding messages carry the average-crowding figure and the
switch message the switch count they interpolate.  String rendering of the
fixed English text is not modelled. -/
inductive Rec where
  | ptNegativeAttitude
  | ptLowSubjectiveNorm
  | ptLowPerceivedControl
  | ptHighIntention
  | carStrongPreference
  | carLowSubjectiveNorm
  | walkCycleChallenge
  | walkCycleEncourage
  | crowdingAlert (avg : ℚ)
  | crowdingModerate (avg : ℚ)
  | crowdingLow (avg : ℚ)
  | switchesObserved (n : ℤ)
  | balancedFallback
deriving DecidableEq

/-- The "General TPB-based" PT block of `generate_recommendations`: under low
PT intention, up to three independent messages; under high PT intention, one
encouragement. -/
def ptBranch (p : UserProfile) : List Rec :=
  if p.Intention_PT_Score < 4 then
    (if p.Attitude_PT_Score < 4 then [Rec.ptNegativeAttitude] else [])
      ++ (if p.SN_PT_Score < 4 then [Rec.ptLowSubjectiveNorm] else [])
      ++ (if p.PBC_PT_Score < 4 then [Rec.ptLowPerceivedControl] else [])
  else if 5 ≤ p.Intention_PT_Score then [Rec.ptHighIntention]
  else []

/-- The Car block of `generate_recommendations`. -/
def carBranch (p : UserProfile) : List Rec :=
  if 5 ≤ p.Intention_Car_Score then
    (if 5 ≤ p.Attitude_Car_Score ∧ 5 ≤ p.PBC_Car_Score
      then [Rec.carStrongPreference] else [])
      ++ (if p.SN_Car_Score < 4 then [Rec.carLowSubjectiveNorm] else [])
  else []

/-- The Walk/Cycle block of `generate_recommendations`. -/
def walkCycleBranch (p : UserProfile) : List Rec :=
  if 5 ≤ p.Intention_WalkCycle_Score then
    if p.PBC_WalkCycle_Score < 4 then [Rec.walkCycleChallenge]
    else [Rec.walkCycleEncourage]
  else []

/-- The crowding block of `generate_recommendations`: runs only when
insights are supplied; appends exactly one of the three threshold messages
(>0.7 alert, >0.4 moderate, otherwise low), then the switch-count message
when switches occurred and the profile's usual mode is PT. -/
def crowdingBranch (p : UserProfile) (ci : Option CrowdingInsights) : List Rec :=
  match ci with
  | none => []
  | some c =>
    let avg := c.average_pt_crowding
    let total := c.total_mode_switches_from_pt
    (if avg > 0.7 then [Rec.crowdingAlert avg]
      else if avg > 0.4 then [Rec.crowdingModerate avg]
      else [Rec.crowdingLow avg])
      ++ (if 0 < total ∧ p.UsualCommuteMode = "Public Transport"
            then [Rec.switchesObserved total] else [])

/-- `generate_recommendations`: the four blocks append to one list in source
order; if nothing fired, a single generic balanced-view message is appended. -/
def generate_recommendations (p : UserProfile) (ci : Option CrowdingInsights) :
    List Rec :=
  let recs := ptBranch p ++ carBranch p ++ walkCycleBranch p
    ++ crowdingBranch p ci
  if recs = [] then [Rec.balancedFallback] else recs

/-- `true` on the three mutually exclusive crowding-level messages. -/
def isCrowdingLevelMsg : Rec → Bool
  | Rec.crowdingAlert _ => true
  | Rec.crowdingModerate _ => true
  | Rec.crowdingLow _ => true
  | _ => false

/-- The spec's midpoint profile: every score 4. -/
def midProfile : UserProfile :=
  { UsualCommuteMode := "Public Transport"
    Intention_PT_Score := 4, Attitude_PT_Score := 4, SN_PT_Score := 4
    PBC_PT_Score := 4, Intention_Car_Score := 4, Attitude_Car_Score := 4
    SN_Car_Score := 4, PBC_Car_Score := 4, Intention_WalkCycle_Score := 4
    PBC_WalkCycle_Score := 4 }

/-- One row of the commuter DataFrame, restricted to the four columns
`run_crowding_simulation` reads (`CommuterID`, `UsualCommuteMode`,
`Attitude_PT_Score`, `PBC_PT_Score`). -/
structure SimRow where
  CommuterID : ℤ
  UsualCommuteMode : String
  Attitude_PT_Score : ℚ
  PBC_PT_Score : ℚ
deriving DecidableEq

/-- Agent construction in `run_crowding_simulation`'s row loop; `tolerance`
is the value the `random.uniform(0.5, 0.9)` default produced for this
agent. -/
def mkAgent (r : SimRow) (tolerance : ℚ) : CommuterAgent :=
  { id := r.CommuterID, usual_mode := r.UsualCommuteMode,
    current_mode := r.UsualCommuteMode, attitude_pt := r.Attitude_PT_Score,
    pbc_pt := r.PBC_PT_Score, crowding_tolerance := tolerance }

/-- The mutable state threaded through the cycle loop of
`run_crowding_simulation`: the line, the cumulative switch counter, the
recorded per-cycle crowding levels and the PT-usual agents. -/
structure SimState where
  pt_line : PublicTransportLine
  mode_switches_total : ℕ
  crowding_levels_over_time : List ℚ
  pt_users : List CommuterAgent

/-- One iteration of `for step in range(num_sim_steps)`: reset the line,
board every PT-usual agent, record the perceived (pre-response) crowding,
let each PT-usual agent decide (counting switchers and marking their
current mode "Alternative"), then set the rider counter to the stayers.
The post-response crowding the source recomputes here is only printed. -/
def simStep (st : SimState) : SimState :=
  let line0 := reset_riders st.pt_line
  let initial_pt_attempt_count := st.pt_users.length
  let line1 := { line0 with current_riders := (initial_pt_attempt_count : ℤ) }
  let perceived_crowding := get_crowding_level line1
  let levels := st.crowding_levels_over_time ++ [perceived_crowding]
  let stayers := st.pt_users.filter (fun a => decide_on_pt a perceived_crowding)
  let switchers :=
    st.pt_users.filter (fun a => !(decide_on_pt a perceived_crowding))
  let pt_users2 := st.pt_users.map (fun a =>
    if decide_on_pt a perceived_crowding then a
    else { a with current_mode := "Alternative" })
  let line2 := { line1 with current_riders := (stayers.length : ℤ) }
  { pt_line := line2,
    mode_switches_total := st.mode_switches_total + switchers.length,
    crowding_levels_over_time := levels,
    pt_users := pt_users2 }

/-- The cycle loop, `num_sim_steps` iterations of `simStep`. -/
def simLoop : ℕ → SimState → SimState
  | 0, st => st
  | n + 1, st => simLoop n (simStep st)

/-- The state of `run_crowding_simulation` just before the cycle loop: a
fresh "Main PT Line" of the given capacity and the filtered PT-usual
agents, one agent per row. -/
def initState (rows : List SimRow) (tol : ℕ → ℚ) (pt_capacity : ℤ) :
    SimState :=
  let agents := rows.enum.map (fun ir => mkAgent ir.2 (tol ir.1))
  { pt_line :=
      { name := "Main PT Line", capacity := pt_capacity, current_riders := 0 },
    mode_switches_total := 0,
    crowding_levels_over_time := [],
    pt_users := agents.filter (fun a => a.usual_mode == "Public Transport") }

/-- The result dict of `run_crowding_simulation`. -/
structure SimResult where
  average_pt_crowding : ℚ
  total_mode_switches_from_pt : ℕ
  simulated_pt_capacity : ℤ
  num_sim_steps : ℕ
deriving DecidableEq

/-- `run_crowding_simulation(commuters_df, pt_capacity, num_sim_steps)`:
build the agents (`tol i` standing for the tolerance sampled for row `i`),
run the cycle loop, and report the average of the recorded crowding levels
(0 when none were recorded), the switch total, the capacity and the cycle
count. -/
def run_crowding_simulation (rows : List SimRow) (tol : ℕ → ℚ)
    (pt_capacity : ℤ) (num_sim_steps : ℕ) : SimResult :=
  let stf := simLoop num_sim_steps (initState rows tol pt_capacity)
  let levels := stf.crowding_levels_over_time
  let avg_crowding :=
    if levels = [] then 0 else levels.sum / (levels.length : ℚ)
  { average_pt_crowding := avg_crowding,
    total_mode_switches_from_pt := stf.mode_switches_total,
    simulated_pt_capacity := pt_capacity,
    num_sim_steps := num_sim_steps }

/-- Number of PT-usual rows in the dataset. -/
def ptCount (rows : List SimRow) : ℕ :=
  (rows.filter (fun r => r.UsualCommuteMode == "Public Transport")).length

/-- The pre-response (post-boarding) crowding of one cycle: `P` boarded
riders on a line of capacity `C`. -/
def preCrowding (C : ℤ) (P : ℕ) : ℚ :=
  if C = 0 then 0 else min 1 (((P : ℤ) : ℚ) / (C : ℚ))

/-- The perceived crowding recorded by a cycle starting from `st`. -/
def perceivedOf (st : SimState) : ℚ :=
  preCrowding st.pt_line.capacity st.pt_users.length

/-- The number of switchers in a cycle starting from `st`. -/
def switchCntOf (st : SimState) : ℕ :=
  (st.pt_users.filter (fun a => !(decide_on_pt a (perceivedOf st)))).length

/-- The §8 scenario population: five commuters, three PT-usual with
PBC-PT 5 (attitudes high so only the PBC rule can fire). -/
def scenarioRows : List SimRow :=
  [ { CommuterID := 1, UsualCommuteMode := "Public Transport",
      Attitude_PT_Score := 5, PBC_PT_Score := 5 },
    { CommuterID := 2, UsualCommuteMode := "Car",
      Attitude_PT_Score := 3, PBC_PT_Score := 3 },
    { CommuterID := 3, UsualCommuteMode := "Public Transport",
      Attitude_PT_Score := 6, PBC_PT_Score := 5 },
    { CommuterID := 4, UsualCommuteMode := "Public Transport",
      Attitude_PT_Score := 5, PBC_PT_Score := 5 },
    { CommuterID := 5, UsualCommuteMode := "Walk/Cycle",
      Attitude_PT_Score := 2, PBC_PT_Score := 5 } ]

end AlmereCommuting

namespace AlmereCommuting

lemma decide_on_pt_iff (a : CommuterAgent) (c : ℚ)
    (hmode : a.usual_mode = "Public Transport") :
    (decide_on_pt a c = false ↔
      (max 1 (a.pbc_pt - max 0 (c - a.crowding_tolerance) * 2 * 3) < 3 ∨
       max 1 (a.attitude_pt - max 0 (c - a.crowding_tolerance) * 2 * 2) < 3)) ∧
    (decide_on_pt a c = true ↔
      (3 ≤ max 1 (a.pbc_pt - max 0 (c - a.crowding_tolerance) * 2 * 3) ∧
       3 ≤ max 1 (a.attitude_pt - max 0 (c - a.crowding_tolerance) * 2 * 2))) := by
  have hmode2 : ¬ a.usual_mode ≠ "Public Transport" := by simp [hmode]
  simp only [decide_on_pt]
  rw [if_neg hmode2]
  split_ifs with h
  · refine ⟨⟨(fun _ => h), (fun _ => rfl)⟩, ⟨(fun hf => nomatch hf), (fun hc => ?_)⟩⟩
    rcases h with h | h
    · exact absurd hc.1 (not_le.mpr h)
    · exact absurd hc.2 (not_le.mpr h)
  · push_neg at h
    exact ⟨⟨(fun hf => nomatch hf),
        (fun hab => hab.elim (fun hx => absurd hx (not_lt.mpr h.1))
          (fun hy => absurd hy (not_lt.mpr h.2)))⟩,
      ⟨(fun _ => h), (fun _ => rfl)⟩⟩

/-- `true` on every message that only the crowding block can append. -/
def isCrowdingBranchMsg : Rec → Bool
  | Rec.crowdingAlert _ => true
  | Rec.crowdingModerate _ => true
  | Rec.crowdingLow _ => true
  | Rec.switchesObserved _ => true
  | _ => false

lemma ptBranch_no_crowding (p : UserProfile) :
    ∀ x ∈ ptBranch p, isCrowdingBranchMsg x = false := by
  intro x hx
  unfold ptBranch at hx
  split_ifs at hx <;>
    simp only [List.mem_append, List.mem_singleton, List.not_mem_nil, or_false,
      false_or] at hx <;>
    rcases hx with (rfl | rfl) | rfl <;> rfl

lemma carBranch_no_crowding (p : UserProfile) :
    ∀ x ∈ carBranch p, isCrowdingBranchMsg x = false := by
  intro x hx
  unfold carBranch at hx
  split_ifs at hx <;>
    simp only [List.mem_append, List.mem_singleton, List.not_mem_nil, or_false,
      false_or] at hx <;>
    rcases hx with rfl | rfl <;> rfl

lemma walkCycleBranch_no_crowding (p : UserProfile) :
    ∀ x ∈ walkCycleBranch p, isCrowdingBranchMsg x = false := by
  intro x hx
  unfold walkCycleBranch at hx
  split_ifs at hx <;>
    simp only [List.mem_singleton, List.not_mem_nil] at hx <;>
    (subst hx; rfl)

lemma tpb_no_crowding (p : UserProfile) :
    ∀ x ∈ ptBranch p ++ carBranch p ++ walkCycleBranch p,
      isCrowdingBranchMsg x = false := by
  intro x hx
  rcases List.mem_append.mp hx with hx | hx
  · rcases List.mem_append.mp hx with hx | hx
    · exact ptBranch_no_crowding p x hx
    · exact carBranch_no_crowding p x hx
  · exact walkCycleBranch_no_crowding p x hx

lemma levelMsg_branchMsg {x : Rec} (h : isCrowdingLevelMsg x = true) :
    isCrowdingBranchMsg x = true := by
  cases x <;> first | rfl | exact absurd h (by simp [isCrowdingLevelMsg])

lemma crowdingBranch_some_eq (p : UserProfile) (c : CrowdingInsights) :
    crowdingBranch p (some c) =
      (if c.average_pt_crowding > 0.7 then
        [Rec.crowdingAlert c.average_pt_crowding]
      else if c.average_pt_crowding > 0.4 then
        [Rec.crowdingModerate c.average_pt_crowding]
      else [Rec.crowdingLow c.average_pt_crowding])
      ++ (if 0 < c.total_mode_switches_from_pt ∧
            p.UsualCommuteMode = "Public Transport" then
          [Rec.switchesObserved c.total_mode_switches_from_pt]
        else []) := rfl

lemma crowdingBranch_some_ne_nil (p : UserProfile) (c : CrowdingInsights) :
    crowdingBranch p (some c) ≠ [] := by
  rw [crowdingBranch_some_eq]
  split_ifs <;> simp

lemma generate_eq_of_some (p : UserProfile) (c : CrowdingInsights) :
    generate_recommendations p (some c) =
      ptBranch p ++ carBranch p ++ walkCycleBranch p ++ crowdingBranch p (some c) := by
  unfold generate_recommendations
  rw [if_neg]
  intro h
  exact crowdingBranch_some_ne_nil p c (List.append_eq_nil.mp h).2

lemma tpb_countP_level (p : UserProfile) :
    (ptBranch p ++ carBranch p ++ walkCycleBranch p).countP isCrowdingLevelMsg
      = 0 := by
  refine List.countP_eq_zero.mpr (fun x hx hlvl => ?_)
  have hb := tpb_no_crowding p x hx
  rw [levelMsg_branchMsg hlvl] at hb
  exact Bool.noConfusion hb

lemma crowdingBranch_countP_level (p : UserProfile) (c : CrowdingInsights) :
    (crowdingBranch p (some c)).countP isCrowdingLevelMsg = 1 := by
  rw [crowdingBranch_some_eq]
  split_ifs <;> rfl

lemma crowdingBranch_alert_iff (p : UserProfile) (c : CrowdingInsights) :
    Rec.crowdingAlert c.average_pt_crowding ∈ crowdingBranch p (some c) ↔
      c.average_pt_crowding > 0.7 := by
  rw [crowdingBranch_some_eq]
  by_cases h1 : c.average_pt_crowding > 0.7
  · simp [h1]
  · rw [if_neg h1]
    constructor
    · intro hm
      exfalso
      rcases List.mem_append.mp hm with hm | hm
      · split_ifs at hm <;> simp_all
      · split_ifs at hm <;> simp_all
    · intro hgt
      exact absurd hgt h1

lemma crowdingBranch_moderate_iff (p : UserProfile) (c : CrowdingInsights) :
    Rec.crowdingModerate c.average_pt_crowding ∈ crowdingBranch p (some c) ↔
      (c.average_pt_crowding > 0.4 ∧ c.average_pt_crowding ≤ 0.7) := by
  rw [crowdingBranch_some_eq]
  by_cases h1 : c.average_pt_crowding > 0.7
  · rw [if_pos h1]
    constructor
    · intro hm
      exfalso
      rcases List.mem_append.mp hm with hm | hm
      · simp_all
      · split_ifs at hm <;> simp_all
    · rintro ⟨h2, h3⟩
      exact absurd h1 (not_lt.mpr h3)
  · rw [if_neg h1]
    by_cases h2 : c.average_pt_crowding > 0.4
    · rw [if_pos h2]
      refine ⟨(fun _ => ⟨h2, not_lt.mp h1⟩), (fun _ => ?_)⟩
      exact List.mem_append.mpr (Or.inl (List.mem_singleton.mpr rfl))
    · rw [if_neg h2]
      constructor
      · intro hm
        exfalso
        rcases List.mem_append.mp hm with hm | hm
        · simp_all
        · split_ifs at hm <;> simp_all
      · rintro ⟨h3, h4⟩
        exact absurd h3 h2

lemma crowdingBranch_low_iff (p : UserProfile) (c : CrowdingInsights) :
    Rec.crowdingLow c.average_pt_crowding ∈ crowdingBranch p (some c) ↔
      c.average_pt_crowding ≤ 0.4 := by
  rw [crowdingBranch_some_eq]
  by_cases h1 : c.average_pt_crowding > 0.7
  · rw [if_pos h1]
    constructor
    · intro hm
      exfalso
      rcases List.mem_append.mp hm with hm | hm
      · simp_all
      · split_ifs at hm <;> simp_all
    · intro h3
      exfalso
      linarith
  · rw [if_neg h1]
    by_cases h2 : c.average_pt_crowding > 0.4
    · rw [if_pos h2]
      constructor
      · intro hm
        exfalso
        rcases List.mem_append.mp hm with hm | hm
        · simp_all
        · split_ifs at hm <;> simp_all
      · intro h3
        exact absurd h2 (not_lt.mpr h3)
    · rw [if_neg h2]
      refine ⟨(fun _ => not_lt.mp h2), (fun _ => ?_)⟩
      exact List.mem_append.mpr (Or.inl (List.mem_singleton.mpr rfl))

lemma crowdingBranch_switch_iff (p : UserProfile) (c : CrowdingInsights) :
    Rec.switchesObserved c.total_mode_switches_from_pt ∈ crowdingBranch p (some c)
      ↔ (0 < c.total_mode_switches_from_pt ∧
          p.UsualCommuteMode = "Public Transport") := by
  rw [crowdingBranch_some_eq]
  by_cases h2 : 0 < c.total_mode_switches_from_pt ∧
      p.UsualCommuteMode = "Public Transport"
  · rw [if_pos h2]
    refine ⟨(fun _ => h2), (fun _ => ?_)⟩
    exact List.mem_append.mpr (Or.inr (List.mem_singleton.mpr rfl))
  · rw [if_neg h2]
    constructor
    · intro hm
      exfalso
      rcases List.mem_append.mp hm with hm | hm
      · split_ifs at hm <;> simp_all
      · simp_all
    · intro hh
      exact absurd hh h2

/-- C2: with insights supplied, `generate_recommendations` appends exactly
one crowding-level message — the alert one iff average crowding > 0.7, the
moderate one iff it is in (0.4, 0.7], the low one iff it is ≤ 0.4 — and the
switch-count message exactly when switches > 0 and the profile's usual mode
is Public Transport. -/
theorem crowding_branch_exclusive (p : UserProfile) (c : CrowdingInsights) :
    ((generate_recommendations p (some c)).countP isCrowdingLevelMsg = 1) ∧
    (Rec.crowdingAlert c.average_pt_crowding ∈ generate_recommendations p (some c)
      ↔ c.average_pt_crowding > 0.7) ∧
    (Rec.crowdingModerate c.average_pt_crowding ∈ generate_recommendations p (some c)
      ↔ (c.average_pt_crowding > 0.4 ∧ c.average_pt_crowding ≤ 0.7)) ∧
    (Rec.crowdingLow c.average_pt_crowding ∈ generate_recommendations p (some c)
      ↔ c.average_pt_crowding ≤ 0.4) ∧
    (Rec.switchesObserved c.total_mode_switches_from_pt
        ∈ generate_recommendations p (some c)
      ↔ (0 < c.total_mode_switches_from_pt ∧
          p.UsualCommuteMode = "Public Transport")) := by
  have htpb := tpb_no_crowding p
  have hmem : ∀ x : Rec, isCrowdingBranchMsg x = true →
      (x ∈ generate_recommendations p (some c) ↔ x ∈ crowdingBranch p (some c)) := by
    intro x hx
    rw [generate_eq_of_some, List.mem_append]
    constructor
    · rintro (hin | hin)
      · rw [htpb x hin] at hx
        exact absurd hx (by simp)
      · exact hin
    · exact fun hin => Or.inr hin
  refine ⟨?_, ?_, ?_, ?_, ?_⟩
  · rw [generate_eq_of_some, List.countP_append, tpb_countP_level,
      crowdingBranch_countP_level]
  · rw [hmem (Rec.crowdingAlert c.average_pt_crowding) rfl]
    exact crowdingBranch_alert_iff p c
  · rw [hmem (Rec.crowdingModerate c.average_pt_crowding) rfl]
    exact crowdingBranch_moderate_iff p c
  · rw [hmem (Rec.crowdingLow c.average_pt_crowding) rfl]
    exact crowdingBranch_low_iff p c
  · rw [hmem (Rec.switchesObserved c.total_mode_switches_from_pt) rfl]
    exact crowdingBranch_switch_iff p c

/-- C4: `generate_recommendations` never returns the empty list; when none
of the threshold rules fired it returns exactly the generic balanced-view
message, and in particular the all-4s profile with no insights gets exactly
that one message. -/
theorem generate_nonempty (p : UserProfile) (ci : Option CrowdingInsights) :
    generate_recommendations p ci ≠ [] ∧
    (ptBranch p ++ carBranch p ++ walkCycleBranch p ++ crowdingBranch p ci = []
      → generate_recommendations p ci = [Rec.balancedFallback]) ∧
    generate_recommendations midProfile none = [Rec.balancedFallback] := by
  refine ⟨?_, ?_, rfl⟩
  · simp only [generate_recommendations]
    split_ifs with h
    · simp
    · exact h
  · intro h
    simp only [generate_recommendations]
    rw [if_pos h]

/-- C4 witness: the midpoint profile with no insights. -/
theorem generate_nonempty_witness :
    generate_recommendations midProfile none ≠ [] :=
  (generate_nonempty midProfile none).1

/-- C1: for a PT-usual agent and perceived crowding in [0,1], `decide_on_pt`
returns `false` exactly when the crowding-adjusted PBC `max 1 (pbc -
impact*3)` or the adjusted attitude `max 1 (att - impact*2)` drops below 3,
with `impact = max 0 (crowding - tolerance) * 2`, and `true` otherwise. -/
theorem decide_on_pt_formula (a : CommuterAgent) (c : ℚ)
    (hmode : a.usual_mode = "Public Transport") (hc0 : 0 ≤ c) (hc1 : c ≤ 1) :
    (decide_on_pt a c = false ↔
      (max 1 (a.pbc_pt - max 0 (c - a.crowding_tolerance) * 2 * 3) < 3 ∨
       max 1 (a.attitude_pt - max 0 (c - a.crowding_tolerance) * 2 * 2) < 3)) ∧
    (decide_on_pt a c = true ↔
      (3 ≤ max 1 (a.pbc_pt - max 0 (c - a.crowding_tolerance) * 2 * 3) ∧
       3 ≤ max 1 (a.attitude_pt - max 0 (c - a.crowding_tolerance) * 2 * 2))) :=
  decide_on_pt_iff a c hmode

/-- C1 witness: a concrete PT-usual agent evaluated at crowding 1/2. -/
theorem decide_on_pt_formula_witness :
    decide_on_pt
      { id := 1, usual_mode := "Public Transport",
        current_mode := "Public Transport", attitude_pt := 5, pbc_pt := 5,
        crowding_tolerance := 3/5 } (1/2) = true ∧
    (3 : ℚ) ≤ max 1 ((5 : ℚ) - max 0 ((1/2 : ℚ) - 3/5) * 2 * 3) := by
  have h := decide_on_pt_formula
    { id := 1, usual_mode := "Public Transport",
      current_mode := "Public Transport", attitude_pt := 5, pbc_pt := 5,
      crowding_tolerance := 3/5 } (1/2) rfl (by norm_num) (by norm_num)
  exact ⟨h.2.mpr (by norm_num), by norm_num⟩

end AlmereCommuting

namespace AlmereCommuting

lemma decide_on_pt_mode_update (a : CommuterAgent) (m : String) (c : ℚ) :
    decide_on_pt { a with current_mode := m } c = decide_on_pt a c := rfl

lemma simStep_capacity (st : SimState) :
    (simStep st).pt_line.capacity = st.pt_line.capacity := rfl

lemma simStep_levels (st : SimState) :
    (simStep st).crowding_levels_over_time =
      st.crowding_levels_over_time ++ [perceivedOf st] := rfl

lemma simStep_switches (st : SimState) :
    (simStep st).mode_switches_total =
      st.mode_switches_total + switchCntOf st := rfl

lemma simStep_users_length (st : SimState) :
    (simStep st).pt_users.length = st.pt_users.length := by
  simp [simStep]

lemma perceivedOf_simStep (st : SimState) :
    perceivedOf (simStep st) = perceivedOf st := by
  unfold perceivedOf
  rw [simStep_capacity, simStep_users_length]

lemma filter_not_decide_map (l : List CommuterAgent) (p c : ℚ) :
    ((l.map (fun a => if decide_on_pt a p then a
        else { a with current_mode := "Alternative" })).filter
      (fun a => !(decide_on_pt a c))).length =
    (l.filter (fun a => !(decide_on_pt a c))).length := by
  rw [← List.countP_eq_length_filter, ← List.countP_eq_length_filter,
    List.countP_map]
  apply List.countP_congr
  intro a ha
  by_cases h : decide_on_pt a p
  · simp [h]
  · simp [h, decide_on_pt_mode_update]

lemma switchCntOf_simStep (st : SimState) :
    switchCntOf (simStep st) = switchCntOf st := by
  unfold switchCntOf
  rw [perceivedOf_simStep]
  have husers : (simStep st).pt_users = st.pt_users.map (fun a =>
      if decide_on_pt a (perceivedOf st) then a
      else { a with current_mode := "Alternative" }) := rfl
  rw [husers, filter_not_decide_map]

lemma simLoop_spec (n : ℕ) (st : SimState) :
    (simLoop n st).crowding_levels_over_time =
      st.crowding_levels_over_time ++ List.replicate n (perceivedOf st) ∧
    (simLoop n st).mode_switches_total =
      st.mode_switches_total + n * switchCntOf st ∧
    (simLoop n st).pt_line.capacity = st.pt_line.capacity ∧
    (simLoop n st).pt_users.length = st.pt_users.length := by
  induction n generalizing st with
  | zero => simp [simLoop]
  | succ n ih =>
    have h := ih (simStep st)
    simp only [simLoop]
    refine ⟨?_, ?_, ?_, ?_⟩
    · rw [h.1, simStep_levels, perceivedOf_simStep, List.append_assoc,
        List.singleton_append, ← List.replicate_succ]
    · rw [h.2.1, simStep_switches, switchCntOf_simStep]
      ring
    · rw [h.2.2.1, simStep_capacity]
    · rw [h.2.2.2, simStep_users_length]


lemma initState_capacity (rows : List SimRow) (tol : ℕ → ℚ) (C : ℤ) :
    (initState rows tol C).pt_line.capacity = C := rfl

lemma initState_users_length (rows : List SimRow) (tol : ℕ → ℚ) (C : ℤ) :
    (initState rows tol C).pt_users.length = ptCount rows := by
  unfold initState ptCount
  rw [← List.countP_eq_length_filter, ← List.countP_eq_length_filter,
    List.countP_map]
  conv_rhs => rw [← List.enum_map_snd rows, List.countP_map]
  rfl

lemma perceivedOf_initState (rows : List SimRow) (tol : ℕ → ℚ) (C : ℤ) :
    perceivedOf (initState rows tol C) = preCrowding C (ptCount rows) := by
  unfold perceivedOf
  rw [initState_users_length, initState_capacity]

lemma run_levels (rows : List SimRow) (tol : ℕ → ℚ) (C : ℤ) (N : ℕ) :
    (simLoop N (initState rows tol C)).crowding_levels_over_time =
      List.replicate N (preCrowding C (ptCount rows)) := by
  rw [(simLoop_spec N (initState rows tol C)).1, perceivedOf_initState]
  rfl

lemma run_avg (rows : List SimRow) (tol : ℕ → ℚ) (C : ℤ) (N : ℕ) :
    (run_crowding_simulation rows tol C N).average_pt_crowding =
      (if N = 0 then 0 else preCrowding C (ptCount rows)) := by
  show (if (simLoop N (initState rows tol C)).crowding_levels_over_time = []
      then (0 : ℚ)
      else (simLoop N (initState rows tol C)).crowding_levels_over_time.sum /
        ((simLoop N (initState rows tol C)).crowding_levels_over_time.length : ℚ))
    = (if N = 0 then 0 else preCrowding C (ptCount rows))
  rw [run_levels]
  rcases Nat.eq_zero_or_pos N with hN | hN
  · subst hN
    simp
  · rw [if_neg (by simp [Nat.pos_iff_ne_zero.mp hN]),
      if_neg (Nat.pos_iff_ne_zero.mp hN),
      List.sum_replicate, List.length_replicate, nsmul_eq_mul]
    exact mul_div_cancel_left₀ _ (by exact_mod_cast (Nat.pos_iff_ne_zero.mp hN))

lemma run_switches (rows : List SimRow) (tol : ℕ → ℚ) (C : ℤ) (N : ℕ) :
    (run_crowding_simulation rows tol C N).total_mode_switches_from_pt =
      N * switchCntOf (initState rows tol C) := by
  show (simLoop N (initState rows tol C)).mode_switches_total = _
  rw [(simLoop_spec N (initState rows tol C)).2.1]
  have h0 : (initState rows tol C).mode_switches_total = 0 := rfl
  rw [h0, Nat.zero_add]


/-- C3: the reported average crowding is the arithmetic mean of exactly the
pre-response crowding values recorded each cycle: the list the loop records
is `replicate N (preCrowding C P)` — the post-boarding figure of each cycle
— and the average is its mean; the post-response crowding recomputed after
the switch decisions is never folded in. -/
theorem average_uses_pre_response_only (rows : List SimRow) (tol : ℕ → ℚ)
    (C : ℤ) (N : ℕ) :
    (simLoop N (initState rows tol C)).crowding_levels_over_time =
      List.replicate N (preCrowding C (ptCount rows)) ∧
    (run_crowding_simulation rows tol C N).average_pt_crowding =
      (if List.replicate N (preCrowding C (ptCount rows)) = [] then 0
       else (List.replicate N (preCrowding C (ptCount rows))).sum /
         ((List.replicate N (preCrowding C (ptCount rows))).length : ℚ)) := by
  have h := run_levels rows tol C N
  refine ⟨h, ?_⟩
  show (if (simLoop N (initState rows tol C)).crowding_levels_over_time = []
      then (0 : ℚ)
      else (simLoop N (initState rows tol C)).crowding_levels_over_time.sum /
        ((simLoop N (initState rows tol C)).crowding_levels_over_time.length : ℚ))
    = _
  rw [h]

/-- C10: with positive capacity and at least one cycle, the reported average
crowding equals `min 1 (P / C)` exactly, `P` being the PT-usual population:
every cycle boards all `P` PT-usual agents, so the figure depends neither on
the cycle count nor on any agent's scores or tolerance. -/
theorem average_pt_crowding_closed_form (rows : List SimRow) (tol : ℕ → ℚ)
    (C : ℤ) (N : ℕ) (hN : 0 < N) (hC : 0 < C) :
    (run_crowding_simulation rows tol C N).average_pt_crowding =
      min 1 ((ptCount rows : ℚ) / (C : ℚ)) := by
  rw [run_avg, if_neg (Nat.pos_iff_ne_zero.mp hN)]
  unfold preCrowding
  rw [if_neg (ne_of_gt hC)]
  norm_num

/-- C10 witness: the §8 population at capacity 3 for one cycle. -/
theorem average_pt_crowding_closed_form_witness :
    (run_crowding_simulation scenarioRows (fun _ => 0.6) 3 1).average_pt_crowding
      = min 1 ((ptCount scenarioRows : ℚ) / ((3 : ℤ) : ℚ)) :=
  average_pt_crowding_closed_form scenarioRows (fun _ => 0.6) 3 1
    (by norm_num) (by norm_num)

/-- C5: degenerate inputs give defined outputs: with zero PT-usual agents
the average crowding is 0 and the switch total 0 (no division error is
possible — the embedding is total), and with zero cycles the average is the
empty-sequence average 0. -/
theorem degenerate_inputs (rows : List SimRow) (tol : ℕ → ℚ) (C : ℤ) (N : ℕ)
    (h : ptCount rows = 0) :
    ((run_crowding_simulation rows tol C N).average_pt_crowding = 0 ∧
     (run_crowding_simulation rows tol C N).total_mode_switches_from_pt = 0) ∧
    (∀ (rows2 : List SimRow) (tol2 : ℕ → ℚ) (C2 : ℤ),
      (run_crowding_simulation rows2 tol2 C2 0).average_pt_crowding = 0) := by
  have hpre : preCrowding C 0 = 0 := by
    unfold preCrowding
    split_ifs with hc
    · rfl
    · push_cast
      rw [zero_div]
      exact min_eq_right zero_le_one
  refine ⟨⟨?_, ?_⟩, ?_⟩
  · rw [run_avg, h, hpre]
    split_ifs <;> rfl
  · rw [run_switches]
    have hle := List.length_filter_le
      (fun a => !(decide_on_pt a (perceivedOf (initState rows tol C))))
      (initState rows tol C).pt_users
    have h0 : (initState rows tol C).pt_users.length = 0 := by
      rw [initState_users_length, h]
    have hcnt : switchCntOf (initState rows tol C) = 0 := by
      unfold switchCntOf
      omega
    rw [hcnt, Nat.mul_zero]
  · intro rows2 tol2 C2
    rw [run_avg]
    rfl

/-- C5 witness: one Car-only commuter, capacity 10, five cycles. -/
theorem degenerate_inputs_witness :
    (run_crowding_simulation [⟨1, "Car", 3, 3⟩] (fun _ => 0.6) 10 5).average_pt_crowding
      = 0 :=
  ((degenerate_inputs [⟨1, "Car", 3, 3⟩] (fun _ => 0.6) 10 5 rfl).1).1

/-- C6: decreasing the capacity (holding population and a positive cycle
count fixed) never decreases the reported average crowding. -/
theorem average_crowding_antitone (rows : List SimRow) (tol : ℕ → ℚ) (N : ℕ)
    (Cbig Csmall : ℤ) (hN : 0 < N) (hs : 0 < Csmall) (hlt : Csmall < Cbig) :
    (run_crowding_simulation rows tol Cbig N).average_pt_crowding ≤
      (run_crowding_simulation rows tol Csmall N).average_pt_crowding := by
  have hb : 0 < Cbig := lt_trans hs hlt
  rw [run_avg, run_avg, if_neg (Nat.pos_iff_ne_zero.mp hN),
    if_neg (Nat.pos_iff_ne_zero.mp hN)]
  unfold preCrowding
  rw [if_neg (ne_of_gt hb), if_neg (ne_of_gt hs)]
  refine min_le_min (le_refl 1) ?_
  refine div_le_div_of_nonneg_left ?_ ?_ ?_
  · positivity
  · exact_mod_cast hs
  · exact_mod_cast le_of_lt hlt

/-- C6 witness: the §8 population, one cycle, capacities 6 > 3. -/
theorem average_crowding_antitone_witness :
    (run_crowding_simulation scenarioRows (fun _ => 0.6) 6 1).average_pt_crowding ≤
      (run_crowding_simulation scenarioRows (fun _ => 0.6) 3 1).average_pt_crowding :=
  average_crowding_antitone scenarioRows (fun _ => 0.6) 1 6 3
    (by norm_num) (by norm_num) (by norm_num)

/-- C7: `PublicTransportLine` operations are total: the crowding level is 0
when capacity is 0 and `min 1 (riders/capacity)` otherwise, it stays inside
[0, 1] on the valid domain (non-negative riders and capacity), and
`remove_rider` floors the counter at 0. -/
theorem transit_line_total (l : PublicTransportLine)
    (hr : 0 ≤ l.current_riders) (hc : 0 ≤ l.capacity) :
    (l.capacity = 0 → get_crowding_level l = 0) ∧
    (l.capacity ≠ 0 →
      get_crowding_level l =
        min 1 ((l.current_riders : ℚ) / (l.capacity : ℚ))) ∧
    0 ≤ get_crowding_level l ∧ get_crowding_level l ≤ 1 ∧
    0 ≤ (remove_rider l).current_riders := by
  refine ⟨(fun h => by simp [get_crowding_level, h]),
    (fun h => by simp [get_crowding_level, h]), ?_, ?_, le_max_left 0 _⟩
  · unfold get_crowding_level
    split_ifs with h
    · exact le_refl 0
    · refine le_min (by norm_num) (div_nonneg ?_ ?_)
      · exact_mod_cast hr
      · exact_mod_cast hc
  · unfold get_crowding_level
    split_ifs with h
    · norm_num
    · exact min_le_left 1 _

/-- C7 witness: a line of capacity 2 holding 3 riders. -/
theorem transit_line_total_witness :
    0 ≤ get_crowding_level
      { name := "Main PT Line", capacity := 2, current_riders := 3 } :=
  (transit_line_total
    { name := "Main PT Line", capacity := 2, current_riders := 3 }
    (by norm_num) (by norm_num)).2.2.1

/-- C9: `decide_on_pt` is embedded as a pure function of the agent — the
source method assigns no attribute of `self`, so no field changes — and for
an agent whose usual mode is not Public Transport it returns `false`
whatever the crowding input. -/
theorem decide_on_pt_non_pt (a : CommuterAgent) (c : ℚ)
    (h : a.usual_mode ≠ "Public Transport") :
    decide_on_pt a c = false := by
  unfold decide_on_pt
  rw [if_pos h]

/-- C9 witness: a Car-usual agent at zero crowding. -/
theorem decide_on_pt_non_pt_witness :
    decide_on_pt
      { id := 2, usual_mode := "Car", current_mode := "Car", attitude_pt := 3,
        pbc_pt := 3, crowding_tolerance := 0.6 } 0 = false :=
  decide_on_pt_non_pt _ 0 (by decide)


lemma scenario_decide (idv : ℤ) (att : ℚ) :
    decide_on_pt
      { id := idv, usual_mode := "Public Transport",
        current_mode := "Public Transport", attitude_pt := att, pbc_pt := 5,
        crowding_tolerance := 0.6 } 1 = false :=
  ((decide_on_pt_iff _ 1 rfl).1).mpr (Or.inl (by norm_num [max_def]))

/-- C8: the §8 scenario — five commuters of which three are PT-usual with
PBC-PT 5 and tolerance 0.6, capacity 3, one cycle: the pre-response crowding
is min(1, 3/3) = 1, each PT-usual agent's adjusted PBC is
max(1, 5 − 0.8·3) = 2.6 < 3 so each gets the switch verdict, and the run
reports 3 switches and average crowding 1. -/
theorem scenario_capacity3 :
    preCrowding 3 (ptCount scenarioRows) = 1 ∧
    (∀ a ∈ (initState scenarioRows (fun _ => 0.6) 3).pt_users,
      max 1 (a.pbc_pt - max 0 ((1 : ℚ) - a.crowding_tolerance) * 2 * 3) = 2.6 ∧
      decide_on_pt a 1 = false) ∧
    (run_crowding_simulation scenarioRows (fun _ => 0.6) 3
      1).total_mode_switches_from_pt = 3 ∧
    (run_crowding_simulation scenarioRows (fun _ => 0.6) 3
      1).average_pt_crowding = 1 := by
  have hc3 : ptCount scenarioRows = 3 := rfl
  have hpre : preCrowding 3 (ptCount scenarioRows) = 1 := by
    rw [hc3]
    unfold preCrowding
    rw [if_neg (by norm_num)]
    norm_num
  have husers : (initState scenarioRows (fun _ => 0.6) 3).pt_users =
      [ { id := 1, usual_mode := "Public Transport",
          current_mode := "Public Transport", attitude_pt := 5, pbc_pt := 5,
          crowding_tolerance := 0.6 },
        { id := 3, usual_mode := "Public Transport",
          current_mode := "Public Transport", attitude_pt := 6, pbc_pt := 5,
          crowding_tolerance := 0.6 },
        { id := 4, usual_mode := "Public Transport",
          current_mode := "Public Transport", attitude_pt := 5, pbc_pt := 5,
          crowding_tolerance := 0.6 } ] := rfl
  have hadj : ∀ a ∈ (initState scenarioRows (fun _ => 0.6) 3).pt_users,
      max 1 (a.pbc_pt - max 0 ((1 : ℚ) - a.crowding_tolerance) * 2 * 3) = 2.6 ∧
      decide_on_pt a 1 = false := by
    rw [husers]
    intro a ha
    fin_cases ha <;>
      exact ⟨by norm_num [max_def], scenario_decide _ _⟩
  have hperc : perceivedOf (initState scenarioRows (fun _ => 0.6) 3) = 1 := by
    rw [perceivedOf_initState, hpre]
  have hswc : switchCntOf (initState scenarioRows (fun _ => 0.6) 3) = 3 := by
    unfold switchCntOf
    rw [hperc, husers]
    simp [List.filter_cons, scenario_decide]
  refine ⟨hpre, hadj, ?_, ?_⟩
  · rw [run_switches, hswc]
  · rw [run_avg, if_neg (by norm_num), hpre]

/-- C8 witness: the reported average at the scenario inputs. -/
theorem scenario_capacity3_witness :
    (run_crowding_simulation scenarioRows (fun _ => 0.6) 3
      1).average_pt_crowding = 1 :=
  scenario_capacity3.2.2.2

end AlmereCommuting
